import Mathlib

/-!
Shallow embedding of `src/ble_advertiser.py` (a BLE advertisement
registration script over D-Bus) and proofs about its behaviour.

Python values travelling over the bus are modelled by the inductive
`PyVal`; Python object identity for the one mutated list
(`_service_uuids`) is modelled by a heap (`Store`) of list cells, since
CPython evaluates default arguments once and shares the resulting list
object between instances.  Straight-line effects of `main` are modelled
as a trace of events parameterised by the replies the daemon returns.
-/

namespace BLEAdvertiser

/-- Source line 13: `OBJECT_MANAGER_INTERFACE`. -/
def OBJECT_MANAGER_INTERFACE : String := "org.freedesktop.DBus.ObjectManager"

/-- Source line 14: `PROPERTIES_INTERFACE`. -/
def PROPERTIES_INTERFACE : String := "org.freedesktop.DBus.Properties"

/-- Source line 17: `BLUEZ_SERVICE`. -/
def BLUEZ_SERVICE : String := "org.bluez"

/-- Source line 20: `LE_ADVERTISING_MANAGER_INTERFACE`. -/
def LE_ADVERTISING_MANAGER_INTERFACE : String := "org.bluez.LEAdvertisingManager1"

/-- Source line 21: `LE_ADVERTISEMENT_IFACE`. -/
def LE_ADVERTISEMENT_IFACE : String := "org.bluez.LEAdvertisement1"

/-- Source line 40: `DBusType.String = "s"`. -/
def DBusType.String := "s"

/-- Source line 41: `DBusType.ArrayofString = "as"`. -/
def DBusType.ArrayofString := "as"

/-- Source line 42: `DBusType.DictIntVariant = "a{qv}"`. -/
def DBusType.DictIntVariant := "a\x7bqv\x7d"

/-- Python values as they appear in D-Bus message bodies: primitives,
`dbus_fast` `Variant`s (a signature string plus a payload), dictionaries
with string keys (modelled as association lists, preserving CPython's
insertion iteration order) and lists. -/
inductive PyVal where
  | str : String → PyVal
  | int : Int → PyVal
  | bytes : List Nat → PyVal
  | variant : String → PyVal → PyVal
  | dict : List (String × PyVal) → PyVal
  | list : List PyVal → PyVal

/-- Source line 54: `v.value if isinstance(v, Variant) else v` — strip one
level of `Variant`, leave every other value untouched. -/
def unwrapVariant : PyVal → PyVal
  | .variant _ v => v
  | v => v

mutual

/-- The transformation `unpack_variants` (source lines 52-59) applies to a
single dictionary value: strip one `Variant` layer, then recursively unpack
a dictionary, or strip the top-level `Variant`s of a list's elements; any
other value is kept as is. -/
def processValue : PyVal → PyVal
  | .variant _ (.dict d) => .dict (unpack_variants d)
  | .variant _ (.list xs) => .list (xs.map unwrapVariant)
  | .variant _ v => v
  | .dict d => .dict (unpack_variants d)
  | .list xs => .list (xs.map unwrapVariant)
  | v => v

/-- Source lines 45-60: `unpack_variants`.  The Python `dict` is modelled as
an association list in insertion order; the loop builds `unpacked` by
processing each value in turn. -/
def unpack_variants : List (String × PyVal) → List (String × PyVal)
  | [] => []
  | (k, v) :: rest => (k, processValue v) :: unpack_variants rest

end

/-!
## The advertisement object

CPython evaluates a `def`'s default argument expressions once, when the
`def` is executed, and every call that omits the argument receives the very
same object.  `BLEAdvertisement.__init__` (source lines 64-72) has the
mutable defaults `service_uuids: List[str] = ["ABCD"]` and
`manufacturer_data = {0x123: Variant("ay", bytes([1,2,3,4,5]))}`.  The only
operation in the class that mutates (rather than rebinds) one of these
objects is `add_service_uuid`, which calls `self._service_uuids.append`
(source line 104), so list identity for `_service_uuids` is what must be
modelled: `Store` is a heap of string-list cells and a `BLEAdvertisement`
holds a reference into it.  All other attributes are only ever rebound, so
they are modelled by value.
-/

/-- Heap of Python list-of-string objects.  `next` is the next fresh
address; `mem` gives each address's current contents. -/
structure Store where
  next : Nat
  mem : Nat → List String

/-- The address of the list object created for the default argument
`service_uuids = ["ABCD"]` when the `def __init__` statement is executed
at class-definition time. -/
def defaultUuidsAddr : Nat := 0

/-- The heap as it stands after the module is loaded: the single default
list object `["ABCD"]` lives at `defaultUuidsAddr`. -/
def defaultStore : Store :=
  ⟨1, fun r => if r = defaultUuidsAddr then ["ABCD"] else []⟩

/-- The default value of the `manufacturer_data` parameter:
`{0x123: Variant("ay", bytes([1, 2, 3, 4, 5]))}` (source lines 68-70).
It is shared between default-constructed instances too, but no code path
mutates it (`add_manufacturer_data` rebinds), so it is modelled by value. -/
def defaultManufacturerData : List (Nat × PyVal) :=
  [(0x123, PyVal.variant "ay" (PyVal.bytes [1, 2, 3, 4, 5]))]

/-- The state of a `BLEAdvertisement` instance (source lines 63-116):
`path` and `service_name` set in `__init__`, the four private attributes
behind the D-Bus properties.  `service_uuids_ref` is the identity of the
Python list object bound to `self._service_uuids`. -/
structure BLEAdvertisement where
  path : String
  service_name : String
  advertisement_type : String
  service_uuids_ref : Nat
  manufacturer_data : List (Nat × PyVal)
  local_name : String

/-- `BLEAdvertisement(advertising_type, service_uuids, manufacturer_data,
local_name)` with all four arguments supplied by the caller (source lines
64-80).  The caller's `service_uuids` list is a list object of its own;
the instance aliases it, which we model by allocating a fresh cell holding
it.  `self.service_data = None` (line 78) plays no further role. -/
def BLEAdvertisement.init (s : Store) (advertising_type : String)
    (service_uuids : List String) (manufacturer_data : List (Nat × PyVal))
    (local_name : String) : Store × BLEAdvertisement :=
  (⟨s.next + 1, fun r => if r = s.next then service_uuids else s.mem r⟩,
   { path := "/org/bluez/advertisement/test1"
     service_name := LE_ADVERTISEMENT_IFACE
     advertisement_type := advertising_type
     service_uuids_ref := s.next
     manufacturer_data := manufacturer_data
     local_name := local_name })

/-- `BLEAdvertisement()` with every argument defaulted: the instance's
`_service_uuids` is the shared default list object at `defaultUuidsAddr`;
the heap is unchanged by construction. -/
def BLEAdvertisement.mkDefault : BLEAdvertisement :=
  { path := "/org/bluez/advertisement/test1"
    service_name := LE_ADVERTISEMENT_IFACE
    advertisement_type := "broadcast"
    service_uuids_ref := defaultUuidsAddr
    manufacturer_data := defaultManufacturerData
    local_name := "TestAdvertisement" }

/-- Getter `advertisement_type`, D-Bus property "Type" (source lines 82-84). -/
def BLEAdvertisement.getType (a : BLEAdvertisement) : String :=
  a.advertisement_type

/-- Getter `service_uuids`, D-Bus property "ServiceUUIDs" (source lines
86-88): reads the list object `self._service_uuids` from the heap. -/
def BLEAdvertisement.getServiceUUIDs (a : BLEAdvertisement) (s : Store) :
    List String :=
  s.mem a.service_uuids_ref

/-- Getter `manufacturer_data`, D-Bus property "ManufacturerData" (source
lines 90-92). -/
def BLEAdvertisement.getManufacturerData (a : BLEAdvertisement) :
    List (Nat × PyVal) :=
  a.manufacturer_data

/-- Getter `local_name`, D-Bus property "LocalName" (source lines 94-96). -/
def BLEAdvertisement.getLocalName (a : BLEAdvertisement) : String :=
  a.local_name

/-- Setter `set_advertisement_type` (source lines 98-100): rebinds
`self._advertisement_type`. -/
def BLEAdvertisement.set_advertisement_type (a : BLEAdvertisement)
    (ad_type : String) : BLEAdvertisement :=
  { a with advertisement_type := ad_type }

/-- Setter `add_service_uuid` (source lines 102-104):
`self._service_uuids.append(uuid)` — mutates the referenced list object in
place; the instance record itself is unchanged. -/
def BLEAdvertisement.add_service_uuid (a : BLEAdvertisement) (s : Store)
    (uuid : String) : Store :=
  { s with
    mem := fun r =>
      if r = a.service_uuids_ref then s.mem a.service_uuids_ref ++ [uuid]
      else s.mem r }

/-- Setter `add_manufacturer_data` (source lines 106-108): rebinds
`self._manufacturer_data` to the new dictionary. -/
def BLEAdvertisement.add_manufacturer_data (a : BLEAdvertisement)
    (data : List (Nat × PyVal)) : BLEAdvertisement :=
  { a with manufacturer_data := data }

/-- Setter `add_local_name` (source lines 110-112): rebinds
`self._local_name`. -/
def BLEAdvertisement.add_local_name (a : BLEAdvertisement) (name : String) :
    BLEAdvertisement :=
  { a with local_name := name }

/-- Method `Release` (source lines 114-116): prints
`"%s: Released!" % self.path` and changes nothing. -/
def BLEAdvertisement.Release (a : BLEAdvertisement) : String :=
  a.path ++ ": Released!"

/-- One invocation of a public mutator of the advertisement object. -/
inductive AdvOp where
  | setType (ad_type : String)
  | addServiceUuid (uuid : String)
  | setManufacturerData (data : List (Nat × PyVal))
  | setLocalName (name : String)
  | release

/-- Effect of one public operation on the heap and the instance.
`release` only prints (see `BLEAdvertisement.Release`). -/
def applyOp : Store × BLEAdvertisement → AdvOp → Store × BLEAdvertisement
  | (s, a), .setType t => (s, a.set_advertisement_type t)
  | (s, a), .addServiceUuid u => (a.add_service_uuid s u, a)
  | (s, a), .setManufacturerData d => (s, a.add_manufacturer_data d)
  | (s, a), .setLocalName n => (s, a.add_local_name n)
  | (s, a), .release => (s, a)

/-- Run a sequence of public operations from a given state. -/
def runOps (st : Store × BLEAdvertisement) (ops : List AdvOp) :
    Store × BLEAdvertisement :=
  ops.foldl applyOp st

/-!
## The `main` coroutine (source lines 119-170)

`main` is a straight line of awaited bus operations.  We model it as a
function from the environment's responses — the `GetManagedObjects` reply
body and the (possibly absent) replies to the two advertising-manager
calls — to the trace of externally visible events it performs.  `dbus_fast`'s
low-level `MessageBus.call` returns the reply `Message` whatever its type
(which is why the source inspects `reply.message_type` itself), so an
error-typed reply is just a reply with `message_type == ERROR`.
-/

/-- The two reply message types the source distinguishes (source lines
165-167): `MessageType.METHOD_RETURN` and `MessageType.ERROR`. -/
inductive MsgType where
  | methodReturn
  | error
deriving DecidableEq

/-- A reply message as `main` sees it: its type and its body. -/
structure Reply where
  message_type : MsgType
  body : List PyVal

/-- An outgoing `Message` as constructed in `main`: destination, path,
member, interface, signature and body. -/
structure Message where
  destination : String
  path : String
  member : String
  interface : String
  signature : String
  body : List PyVal

/-- What `main` prints about the `RegisterAdvertisement` reply (source
lines 164-168): `"Advertisement registered"` on a method return,
`f"Error:  {reply.body}"` on an error. -/
inductive Output where
  | registered
  | errorBody (body : List PyVal)

/-- Externally visible events of `main`, in order: connecting the system
bus, exporting the advertisement object at its path, requesting a bus
name, sending a method-call message, printing, and waiting for
disconnection. -/
inductive Event where
  | connect
  | exportObj (path : String)
  | requestName (name : String)
  | call (m : Message)
  | printOut (o : Output)
  | waitForDisconnect

/-- The `GetManagedObjects` call (source lines 125-132). -/
def getManagedObjectsMsg : Message :=
  { destination := BLUEZ_SERVICE
    path := "/"
    member := "GetManagedObjects"
    interface := OBJECT_MANAGER_INTERFACE
    signature := ""
    body := [] }

/-- The `UnregisterAdvertisement` call (source lines 142-151): signature
`"o"`, body `[test.path]`. -/
def unregisterMsg (adapter_path adv_path : String) : Message :=
  { destination := BLUEZ_SERVICE
    path := adapter_path
    member := "UnregisterAdvertisement"
    interface := LE_ADVERTISING_MANAGER_INTERFACE
    signature := "o"
    body := [PyVal.str adv_path] }

/-- The `RegisterAdvertisement` call (source lines 154-163): signature
`"oa{sv}"`, body `[test.path, {}]`. -/
def registerMsg (adapter_path adv_path : String) : Message :=
  { destination := BLUEZ_SERVICE
    path := adapter_path
    member := "RegisterAdvertisement"
    interface := LE_ADVERTISING_MANAGER_INTERFACE
    signature := "oa\x7bsv\x7d"
    body := [PyVal.str adv_path, PyVal.dict []] }

/-- The membership test `LE_ADVERTISING_MANAGER_INTERFACE in props` (source
lines 136-138), where `props = unpack_variants(interfaces)`: Python's `in`
on a dict tests key membership. -/
def hasLEAdvertisingManager (interfaces : List (String × PyVal)) : Bool :=
  (unpack_variants interfaces).any
    (fun kv => kv.1 = LE_ADVERTISING_MANAGER_INTERFACE)

/-- The adapter-path selection loop (source lines 134-139): start from
`"/org/bluez/hci0"` and overwrite `adapter_path` with every path whose
interface dictionary contains the advertising-manager interface; the last
match wins.  `objects` is `reply.body[0]` of a successful
`GetManagedObjects` reply, a dictionary from object path to a dictionary
of interfaces, in iteration order. -/
def adapterPathFrom (objects : List (String × List (String × PyVal))) :
    String :=
  objects.foldl
    (fun acc po => if hasLEAdvertisingManager po.2 then po.1 else acc)
    "/org/bluez/hci0"

set_option linter.unusedVariables false

/-- The trace of `main` (source lines 119-170), given the environment's
responses.  `unregisterReply` is bound to `reply` by the source and then
overwritten without ever being inspected, so it does not influence the
trace.  Only the `RegisterAdvertisement` reply is inspected: if present,
a method return prints the success message and an error prints the body
(source lines 164-168). -/
def mainTrace (objects : List (String × List (String × PyVal)))
    (unregisterReply registerReply : Option Reply) : List Event :=
  let test := BLEAdvertisement.mkDefault
  let adapter_path := adapterPathFrom objects
  [Event.connect,
   Event.exportObj test.path,
   Event.requestName LE_ADVERTISEMENT_IFACE,
   Event.call getManagedObjectsMsg,
   Event.call (unregisterMsg adapter_path test.path),
   Event.call (registerMsg adapter_path test.path)]
  ++ (match registerReply with
      | none => []
      | some r =>
        match r.message_type with
        | .methodReturn => [Event.printOut Output.registered]
        | .error => [Event.printOut (Output.errorBody r.body)])
  ++ [Event.waitForDisconnect]

/-- The method-call messages of a trace, in order. -/
def callsOf (tr : List Event) : List Message :=
  tr.filterMap (fun e => match e with | .call m => some m | _ => none)

/-- The printed outputs of a trace, in order. -/
def outputsOf (tr : List Event) : List Output :=
  tr.filterMap (fun e => match e with | .printOut o => some o | _ => none)

/-- For C7: constructing a `BLEAdvertisement` with every argument left to
its default allocates nothing — the instance receives the list object that
already lives at `defaultUuidsAddr`, the one created when `def __init__`
was executed. -/
def BLEAdvertisement.initDefault (s : Store) : Store × BLEAdvertisement :=
  (s, BLEAdvertisement.mkDefault)

/-- A D-Bus property as declared on a service interface: its external
name and its D-Bus type signature. -/
structure DBusPropertySpec where
  name : String
  signature : String
deriving DecidableEq

/-- The properties the `BLEAdvertisement` class declares on its D-Bus
interface via `@dbus_property` (source lines 82-96), in declaration order,
each with the signature given by the getter's return annotation.
`Release` (line 114) is declared with `@method`, not `@dbus_property`, and
`self.service_data` (line 78) is a plain attribute without a decorator, so
neither adds a property. -/
def BLEAdvertisement.dbus_properties : List DBusPropertySpec :=
  [⟨"Type", DBusType.String⟩,
   ⟨"ServiceUUIDs", DBusType.ArrayofString⟩,
   ⟨"ManufacturerData", DBusType.DictIntVariant⟩,
   ⟨"LocalName", DBusType.String⟩]

/-!
## Helper lemmas
-/

/-- `unpack_variants` maps `processValue` over the values of the
dictionary, entry by entry. -/
theorem unpack_variants_eq_map (d : List (String × PyVal)) :
    unpack_variants d = d.map (fun kv => (kv.1, processValue kv.2)) := by
  induction d with
  | nil => rfl
  | cons kv rest ih =>
    obtain ⟨k, v⟩ := kv
    rw [unpack_variants, ih, List.map_cons]

/-- `unpack_variants` preserves the key sequence of the dictionary. -/
theorem unpack_variants_keys (d : List (String × PyVal)) :
    (unpack_variants d).map Prod.fst = d.map Prod.fst := by
  rw [unpack_variants_eq_map, List.map_map]
  rfl

/-- `getD` of `getLast?` shifts across a `cons`: the head becomes the new
default. -/
theorem getLast?_getD_cons {α : Type} :
    ∀ (ys : List α) (a d : α),
      (((a :: ys).getLast?).getD d) = ((ys.getLast?).getD a) := by
  intro ys
  induction ys with
  | nil => intro a d; rfl
  | cons b ys ih =>
    intro a d
    rw [List.getLast?_cons_cons, ih b d, ih b a]

/-- A fold that overwrites its accumulator at every element satisfying `p`
computes the image of the last such element, or the initial value when
there is none. -/
theorem foldl_last_match {α β : Type} (p : α → Bool) (f : α → β) :
    ∀ (l : List α) (d : β),
      l.foldl (fun acc x => if p x then f x else acc) d =
        ((((l.filter p).map f).getLast?).getD d) := by
  intro l
  induction l with
  | nil => intro d; rfl
  | cons x xs ih =>
    intro d
    by_cases h : p x
    · rw [List.foldl_cons, if_pos h, ih (f x), List.filter_cons_of_pos h,
        List.map_cons, getLast?_getD_cons]
    · rw [List.foldl_cons, if_neg h, ih d, List.filter_cons_of_neg h]

/-- Neither component of the pair returned by a public operation changes
the instance's `path`, `service_name`, `manufacturer_data` binding except
as the operation says; in particular `path` is never changed. -/
theorem applyOp_path (st : Store × BLEAdvertisement) (op : AdvOp) :
    (applyOp st op).2.path = st.2.path := by
  obtain ⟨s, a⟩ := st
  cases op <;> rfl

/-- No public operation changes the instance's `service_name`. -/
theorem applyOp_service_name (st : Store × BLEAdvertisement) (op : AdvOp) :
    (applyOp st op).2.service_name = st.2.service_name := by
  obtain ⟨s, a⟩ := st
  cases op <;> rfl

/-- Running any sequence of public operations leaves `path` unchanged. -/
theorem runOps_path (st : Store × BLEAdvertisement) (ops : List AdvOp) :
    (runOps st ops).2.path = st.2.path := by
  induction ops generalizing st with
  | nil => rfl
  | cons op ops ih => rw [runOps, List.foldl_cons]; exact (ih _).trans (applyOp_path st op)

/-- Running any sequence of public operations leaves `service_name`
unchanged. -/
theorem runOps_service_name (st : Store × BLEAdvertisement) (ops : List AdvOp) :
    (runOps st ops).2.service_name = st.2.service_name := by
  induction ops generalizing st with
  | nil => rfl
  | cons op ops ih =>
    rw [runOps, List.foldl_cons]
    exact (ih _).trans (applyOp_service_name st op)

/-!
## Claim theorems
-/

/-- C9: `unpack_variants` returns a dictionary with exactly the same keys,
transforming each value independently: a `Variant` value is replaced by its
payload; a value that is (or unwraps to) a dictionary is recursively
unpacked; a value that is (or unwraps to) a list has its top-level
`Variant` elements replaced by their payloads; every other value is kept
unchanged; and dictionaries nested inside lists, as well as the contents
of a `Variant` payload inside a list, are not unpacked any further. -/
theorem unpack_variants_spec :
    (∀ d, (unpack_variants d).map Prod.fst = d.map Prod.fst) ∧
    (∀ d, unpack_variants d = d.map (fun kv => (kv.1, processValue kv.2))) ∧
    (∀ sig d, processValue (.variant sig (.dict d)) = .dict (unpack_variants d)) ∧
    (∀ d, processValue (.dict d) = .dict (unpack_variants d)) ∧
    (∀ sig xs, processValue (.variant sig (.list xs)) = .list (xs.map unwrapVariant)) ∧
    (∀ xs, processValue (.list xs) = .list (xs.map unwrapVariant)) ∧
    (∀ sig s, processValue (.variant sig (.str s)) = .str s) ∧
    (∀ sig n, processValue (.variant sig (.int n)) = .int n) ∧
    (∀ sig b, processValue (.variant sig (.bytes b)) = .bytes b) ∧
    (∀ sig sig2 v, processValue (.variant sig (.variant sig2 v)) = .variant sig2 v) ∧
    (∀ s, processValue (.str s) = .str s) ∧
    (∀ n, processValue (.int n) = .int n) ∧
    (∀ b, processValue (.bytes b) = .bytes b) ∧
    (∀ d xs, processValue (.list (PyVal.dict d :: xs)) =
       .list (PyVal.dict d :: xs.map unwrapVariant)) ∧
    (∀ sig v xs, processValue (.list (PyVal.variant sig v :: xs)) =
       .list (v :: xs.map unwrapVariant)) := by
  refine ⟨unpack_variants_keys, unpack_variants_eq_map, ?_, ?_, ?_, ?_, ?_,
    ?_, ?_, ?_, ?_, ?_, ?_, ?_, ?_⟩ <;>
    intros <;> simp [processValue, unwrapVariant]

/-- C2: every getter of a freshly constructed `BLEAdvertisement` returns
the corresponding constructor argument — `Type` the `advertising_type`,
`ServiceUUIDs` the `service_uuids`, `ManufacturerData` the
`manufacturer_data`, `LocalName` the `local_name` — and the default
construction returns the four default values. -/
theorem init_getters (s : Store) (advertising_type : String)
    (service_uuids : List String) (manufacturer_data : List (Nat × PyVal))
    (local_name : String) :
    ((BLEAdvertisement.init s advertising_type service_uuids
        manufacturer_data local_name).2).getType = advertising_type ∧
    ((BLEAdvertisement.init s advertising_type service_uuids
        manufacturer_data local_name).2).getServiceUUIDs
      (BLEAdvertisement.init s advertising_type service_uuids
        manufacturer_data local_name).1 = service_uuids ∧
    ((BLEAdvertisement.init s advertising_type service_uuids
        manufacturer_data local_name).2).getManufacturerData =
      manufacturer_data ∧
    ((BLEAdvertisement.init s advertising_type service_uuids
        manufacturer_data local_name).2).getLocalName = local_name ∧
    BLEAdvertisement.mkDefault.getType = "broadcast" ∧
    BLEAdvertisement.mkDefault.getServiceUUIDs defaultStore = ["ABCD"] ∧
    BLEAdvertisement.mkDefault.getManufacturerData =
      defaultManufacturerData ∧
    BLEAdvertisement.mkDefault.getLocalName = "TestAdvertisement" := by
  refine ⟨rfl, ?_, rfl, rfl, rfl, rfl, rfl, rfl⟩
  simp [BLEAdvertisement.init, BLEAdvertisement.getServiceUUIDs]

/-- C3 counterexample: the `ServiceUUIDs` setter does not satisfy the
set-then-get round trip.  On a default-constructed advertisement
(`_service_uuids = ["ABCD"]`), invoking the setter with `"1234"` and then
the getter yields `["ABCD", "1234"]`, not `["1234"]` — `add_service_uuid`
appends instead of replacing. -/
theorem add_service_uuid_no_roundtrip :
    BLEAdvertisement.mkDefault.getServiceUUIDs
        (BLEAdvertisement.mkDefault.add_service_uuid defaultStore "1234") =
      ["ABCD", "1234"] ∧
    BLEAdvertisement.mkDefault.getServiceUUIDs
        (BLEAdvertisement.mkDefault.add_service_uuid defaultStore "1234") ≠
      ["1234"] := by
  refine ⟨rfl, ?_⟩
  decide

/-- C3 amended: the `Type`, `ManufacturerData` and `LocalName` setters
satisfy the set-then-get round trip for every value and every starting
state; the `ServiceUUIDs` setter instead takes a single UUID string and
appends it, so the getter afterwards returns the previous list with the
new element at the end. -/
theorem setters_set_then_get (s : Store) (a : BLEAdvertisement)
    (ad_type : String) (data : List (Nat × PyVal)) (name uuid : String) :
    (a.set_advertisement_type ad_type).getType = ad_type ∧
    (a.add_manufacturer_data data).getManufacturerData = data ∧
    (a.add_local_name name).getLocalName = name ∧
    a.getServiceUUIDs (a.add_service_uuid s uuid) =
      a.getServiceUUIDs s ++ [uuid] := by
  refine ⟨rfl, rfl, rfl, ?_⟩
  simp [BLEAdvertisement.add_service_uuid, BLEAdvertisement.getServiceUUIDs]

/-- C6: the D-Bus interface of the exported advertisement object carries
exactly the four properties `Type` ("s"), `ServiceUUIDs` ("as"),
`ManufacturerData` ("a{qv}", integer keys to variants) and `LocalName`
("s"), and no others. -/
theorem dbus_properties_exact :
    BLEAdvertisement.dbus_properties.map DBusPropertySpec.name =
      ["Type", "ServiceUUIDs", "ManufacturerData", "LocalName"] ∧
    BLEAdvertisement.dbus_properties.length = 4 ∧
    (BLEAdvertisement.dbus_properties.map DBusPropertySpec.name).Nodup ∧
    BLEAdvertisement.dbus_properties =
      [⟨"Type", "s"⟩, ⟨"ServiceUUIDs", "as"⟩,
       ⟨"ManufacturerData", "a\x7bqv\x7d"⟩, ⟨"LocalName", "s"⟩] := by
  refine ⟨rfl, rfl, ?_, rfl⟩
  decide

/-- C7 (code bug): two advertisements constructed with the default
arguments share one `_service_uuids` list object — CPython evaluates the
default `["ABCD"]` once — so appending a UUID through instance `a` changes
what instance `b`'s `ServiceUUIDs` getter returns, from `["ABCD"]` to
`["ABCD", "1234"]`. -/
theorem default_instances_share_uuid_list :
    ((BLEAdvertisement.initDefault
        (BLEAdvertisement.initDefault defaultStore).1).2).getServiceUUIDs
      (BLEAdvertisement.initDefault
        (BLEAdvertisement.initDefault defaultStore).1).1 = ["ABCD"] ∧
    ((BLEAdvertisement.initDefault
        (BLEAdvertisement.initDefault defaultStore).1).2).getServiceUUIDs
      (((BLEAdvertisement.initDefault defaultStore).2).add_service_uuid
        (BLEAdvertisement.initDefault
          (BLEAdvertisement.initDefault defaultStore).1).1 "1234") =
      ["ABCD", "1234"] :=
  ⟨rfl, rfl⟩

/-- C4 counterexample: the code never restricts the advertising type to
`broadcast`/`peripheral`.  The state reached from the default construction
by the single public-setter call `set_advertisement_type("connectable")`
has `Type = "connectable"`, which is neither `"broadcast"` nor
`"peripheral"`. -/
theorem type_enumeration_not_enforced :
    (runOps (defaultStore, BLEAdvertisement.mkDefault)
        [AdvOp.setType "connectable"]).2.getType = "connectable" ∧
    ¬((runOps (defaultStore, BLEAdvertisement.mkDefault)
          [AdvOp.setType "connectable"]).2.getType = "broadcast" ∨
      (runOps (defaultStore, BLEAdvertisement.mkDefault)
          [AdvOp.setType "connectable"]).2.getType = "peripheral") := by
  refine ⟨rfl, ?_⟩
  decide

/-- C4 amended: the `Type` getter returns whatever string was supplied
last (constructor argument or `set_advertisement_type` argument); the
enumeration is not enforced locally.  Consequently, in every state
reachable from a state whose type is `"broadcast"` or `"peripheral"` via
public operations whose `setType` arguments all lie in that enumeration,
the `Type` getter still returns `"broadcast"` or `"peripheral"`. -/
theorem type_in_enumeration_of_valid_inputs (s0 : Store)
    (a0 : BLEAdvertisement) (ops : List AdvOp)
    (h0 : a0.getType = "broadcast" ∨ a0.getType = "peripheral")
    (hops : ∀ t, AdvOp.setType t ∈ ops →
      t = "broadcast" ∨ t = "peripheral") :
    (runOps (s0, a0) ops).2.getType = "broadcast" ∨
    (runOps (s0, a0) ops).2.getType = "peripheral" := by
  induction ops generalizing s0 a0 with
  | nil => exact h0
  | cons op ops ih =>
    have hops' : ∀ t, AdvOp.setType t ∈ ops →
        t = "broadcast" ∨ t = "peripheral" :=
      fun t ht => hops t (List.mem_cons_of_mem _ ht)
    cases op with
    | setType t =>
      exact ih s0 (a0.set_advertisement_type t)
        (hops t (List.mem_cons_self _ _)) hops'
    | addServiceUuid u => exact ih (a0.add_service_uuid s0 u) a0 h0 hops'
    | setManufacturerData d =>
      exact ih s0 (a0.add_manufacturer_data d) h0 hops'
    | setLocalName n => exact ih s0 (a0.add_local_name n) h0 hops'
    | release => exact ih s0 a0 h0 hops'

/-- Witness for the amended C4 at a concrete input: starting from the
default construction and setting the type to `"peripheral"` keeps the type
inside the enumeration. -/
theorem type_in_enumeration_of_valid_inputs_witness :
    (runOps (defaultStore, BLEAdvertisement.mkDefault)
        [AdvOp.setType "peripheral"]).2.getType = "broadcast" ∨
    (runOps (defaultStore, BLEAdvertisement.mkDefault)
        [AdvOp.setType "peripheral"]).2.getType = "peripheral" :=
  type_in_enumeration_of_valid_inputs defaultStore BLEAdvertisement.mkDefault
    [AdvOp.setType "peripheral"] (Or.inl rfl)
    (by
      intro t ht
      simp only [List.mem_singleton, AdvOp.setType.injEq] at ht
      exact Or.inr ht)

/-- C1: for every daemon behaviour, the trace of `main` is: connect, export
the advertisement object, request a bus name, enumerate managed objects,
unregister the advertisement at the object's path, register it at that same
path, then (after any printing) wait for disconnection.  In particular the
three calls to the Bluetooth daemon are, in order, `GetManagedObjects`,
`UnregisterAdvertisement`, `RegisterAdvertisement`: unregistration always
precedes registration and never follows it. -/
theorem main_call_order (objects : List (String × List (String × PyVal)))
    (unregisterReply registerReply : Option Reply) :
    (∃ outs : List Event,
      (∀ e ∈ outs, ∃ o, e = Event.printOut o) ∧
      mainTrace objects unregisterReply registerReply =
        [Event.connect,
         Event.exportObj "/org/bluez/advertisement/test1",
         Event.requestName LE_ADVERTISEMENT_IFACE,
         Event.call getManagedObjectsMsg,
         Event.call (unregisterMsg (adapterPathFrom objects)
           "/org/bluez/advertisement/test1"),
         Event.call (registerMsg (adapterPathFrom objects)
           "/org/bluez/advertisement/test1")]
        ++ outs ++ [Event.waitForDisconnect]) ∧
    (callsOf
        (mainTrace objects unregisterReply registerReply)).map
        Message.member =
      ["GetManagedObjects", "UnregisterAdvertisement",
       "RegisterAdvertisement"] := by
  constructor
  · refine ⟨(match registerReply with
      | none => []
      | some r =>
        match r.message_type with
        | .methodReturn => [Event.printOut Output.registered]
        | .error => [Event.printOut (Output.errorBody r.body)]), ?_, rfl⟩
    rcases registerReply with _ | ⟨mt, body⟩
    · simp
    · cases mt <;> simp
  · rcases registerReply with _ | ⟨mt, body⟩
    · rfl
    · cases mt <;> rfl

/-- C5 counterexample: an error-typed reply to `UnregisterAdvertisement`
is not printed.  With an error reply to the unregister call and a
successful register reply, `main` prints only the success message — the
unregister error is silently discarded (the source overwrites `reply`
without inspecting it). -/
theorem unregister_error_not_printed :
    outputsOf (mainTrace []
        (some ⟨MsgType.error, [PyVal.str "org.bluez.Error.DoesNotExist"]⟩)
        (some ⟨MsgType.methodReturn, []⟩)) = [Output.registered] ∧
    Output.errorBody [PyVal.str "org.bluez.Error.DoesNotExist"] ∉
      outputsOf (mainTrace []
        (some ⟨MsgType.error, [PyVal.str "org.bluez.Error.DoesNotExist"]⟩)
        (some ⟨MsgType.methodReturn, []⟩)) := by
  refine ⟨rfl, ?_⟩
  intro h
  simp [outputsOf, mainTrace] at h

/-- C5 amended: only the `RegisterAdvertisement` reply is inspected: when
it is an error the error body is printed, when it is a method return the
success message is printed, and nothing is printed when no reply arrives.
The reply to `UnregisterAdvertisement` has no effect on the trace at all,
and no call is retried — each of the three remote calls appears exactly
once. -/
theorem register_reply_handling
    (objects : List (String × List (String × PyVal)))
    (unregR unregR' regR : Option Reply) :
    mainTrace objects unregR regR = mainTrace objects unregR' regR ∧
    (callsOf (mainTrace objects unregR regR)).map Message.member =
      ["GetManagedObjects", "UnregisterAdvertisement",
       "RegisterAdvertisement"] ∧
    (∀ r : Reply, regR = some r → r.message_type = MsgType.error →
      outputsOf (mainTrace objects unregR regR) =
        [Output.errorBody r.body]) ∧
    (∀ r : Reply, regR = some r → r.message_type = MsgType.methodReturn →
      outputsOf (mainTrace objects unregR regR) = [Output.registered]) ∧
    (regR = none → outputsOf (mainTrace objects unregR regR) = []) := by
  refine ⟨rfl, ?_, ?_, ?_, ?_⟩
  · rcases regR with _ | ⟨mt, body⟩
    · rfl
    · cases mt <;> rfl
  · rintro ⟨mt, body⟩ rfl hm
    cases mt
    · exact MsgType.noConfusion hm
    · rfl
  · rintro ⟨mt, body⟩ rfl hm
    cases mt
    · rfl
    · exact MsgType.noConfusion hm
  · rintro rfl
    rfl

/-- Witness for the amended C5 at a concrete input: an error-typed
register reply makes `main` print exactly that error body. -/
theorem register_reply_handling_witness :
    outputsOf (mainTrace [] none
        (some ⟨MsgType.error, [PyVal.str "org.bluez.Error.Failed"]⟩)) =
      [Output.errorBody [PyVal.str "org.bluez.Error.Failed"]] :=
  (register_reply_handling [] none none
      (some ⟨MsgType.error, [PyVal.str "org.bluez.Error.Failed"]⟩)).2.2.1
    ⟨MsgType.error, [PyVal.str "org.bluez.Error.Failed"]⟩ rfl rfl

/-- C8: `main` sends `UnregisterAdvertisement` and `RegisterAdvertisement`
to one and the same adapter path; that path is the last path of the
`GetManagedObjects` reply (in iteration order) whose interface map has the
key `org.bluez.LEAdvertisingManager1`, and it falls back to
`"/org/bluez/hci0"` when no object exposes that interface. -/
theorem adapter_path_selection
    (objects : List (String × List (String × PyVal)))
    (unregR regR : Option Reply) :
    (callsOf (mainTrace objects unregR regR)).map Message.path =
      ["/", adapterPathFrom objects, adapterPathFrom objects] ∧
    adapterPathFrom objects =
      ((((objects.filter fun po => hasLEAdvertisingManager po.2).map
          Prod.fst).getLast?).getD "/org/bluez/hci0") ∧
    (∀ ifaces : List (String × PyVal),
      hasLEAdvertisingManager ifaces =
        ifaces.any fun kv => kv.1 = LE_ADVERTISING_MANAGER_INTERFACE) := by
  refine ⟨?_, ?_, ?_⟩
  · rcases regR with _ | ⟨mt, body⟩
    · rfl
    · cases mt <;> rfl
  · exact foldl_last_match (fun po => hasLEAdvertisingManager po.2)
      Prod.fst objects "/org/bluez/hci0"
  · intro ifaces
    unfold hasLEAdvertisingManager
    rw [unpack_variants_eq_map, List.any_map]
    rfl

/-- C10: the exported object's bus path and interface name are the
constants `"/org/bluez/advertisement/test1"` and
`"org.bluez.LEAdvertisement1"` for every choice of constructor arguments;
no public operation (setters or `Release`) changes either; and both
advertising-manager calls of `main` carry that fixed object path in their
bodies. -/
theorem path_and_interface_constant (s : Store) (advertising_type : String)
    (service_uuids : List String) (manufacturer_data : List (Nat × PyVal))
    (local_name : String) (ops : List AdvOp)
    (objects : List (String × List (String × PyVal)))
    (unregR regR : Option Reply) :
    ((BLEAdvertisement.init s advertising_type service_uuids
        manufacturer_data local_name).2).path =
      "/org/bluez/advertisement/test1" ∧
    ((BLEAdvertisement.init s advertising_type service_uuids
        manufacturer_data local_name).2).service_name =
      "org.bluez.LEAdvertisement1" ∧
    (runOps (BLEAdvertisement.init s advertising_type service_uuids
        manufacturer_data local_name) ops).2.path =
      "/org/bluez/advertisement/test1" ∧
    (runOps (BLEAdvertisement.init s advertising_type service_uuids
        manufacturer_data local_name) ops).2.service_name =
      "org.bluez.LEAdvertisement1" ∧
    BLEAdvertisement.mkDefault.path = "/org/bluez/advertisement/test1" ∧
    BLEAdvertisement.mkDefault.service_name =
      "org.bluez.LEAdvertisement1" ∧
    (callsOf (mainTrace objects unregR regR)).map Message.body =
      [[], [PyVal.str "/org/bluez/advertisement/test1"],
       [PyVal.str "/org/bluez/advertisement/test1", PyVal.dict []]] := by
  refine ⟨rfl, rfl, ?_, ?_, rfl, rfl, ?_⟩
  · exact runOps_path _ ops
  · exact runOps_service_name _ ops
  · rcases regR with _ | ⟨mt, body⟩
    · rfl
    · cases mt <;> rfl

end BLEAdvertiser
